import Mathlib

/-
Verification of the libratbag device-database validation scripts.

The definitions below are a shallow embedding of the Python checkers in
`test/data-parse-test.py`, `test/duplicate-check.py` and
`test/receiver-check.py`.  INI files are modelled as already-parsed
association lists (configparser with `strict=True` guarantees unique
section names and keys).  Python `assert`/`raise` sites are mapped to the
typed error taxonomy of the specification (`FormatError`, `OrderError`,
`UnknownValueError`, `UnknownKeyError`, `ConflictError`,
`MissingSectionError`, `MissingKeyError`, `UnsupportedDriverError`,
`UnexpectedSectionError`, `IllegalNameError`).
-/

set_option autoImplicit false
set_option maxRecDepth 8192

namespace Ratbag

/-- Error taxonomy of the specification, one constructor per kind of
validation failure raised by the Python checkers. -/
inductive ValErr where
  | formatError
  | orderError
  | unknownValueError
  | unknownKeyError
  | conflictError
  | missingSectionError
  | missingKeyError
  | unsupportedDriverError
  | unexpectedSectionError
  | illegalNameError
  deriving DecidableEq, Repr

/-- A parsed INI section: keys with their raw string values, in file order. -/
abbrev IniSection := List (String × String)

/-- A parsed device file: named sections in file order. -/
abbrev DeviceFile := List (String × IniSection)

/-- Association-list lookup with decidable string equality; models both
Python dict lookup and configparser section/key access (keys are unique
under `strict=True`, so first match is the match). -/
def alook {α : Type} (k : String) : List (String × α) → Option α
  | [] => none
  | (k', v) :: rest => if k' = k then some v else alook k rest

/-- Split a character list at every occurrence of `c`, Python
`str.split(c)` semantics: the empty list of characters yields one empty
field, `n` separators yield `n+1` fields. -/
def splitChList (c : Char) : List Char → List (List Char)
  | [] => [[]]
  | x :: rest =>
    let r := splitChList c rest
    if x = c then [] :: r
    else
      match r with
      | h :: t => (x :: h) :: t
      | [] => [[x]]

/-- Python `s.split(c)` for a single-character separator. -/
def splitCh (c : Char) (s : String) : List String :=
  (splitChList c s.data).map String.mk

/-- Digit value of a decimal digit character. -/
def digitVal (c : Char) : Option Nat :=
  if '0' ≤ c ∧ c ≤ '9' then some (c.toNat - 48) else none

/-- Digit value of a hexadecimal digit character (both cases accepted,
as Python `int(s, 16)` does). -/
def hexVal (c : Char) : Option Nat :=
  if '0' ≤ c ∧ c ≤ '9' then some (c.toNat - 48)
  else if 'a' ≤ c ∧ c ≤ 'f' then some (c.toNat - 87)
  else if 'A' ≤ c ∧ c ≤ 'F' then some (c.toNat - 55)
  else none

/-- Accumulate digits in base `base` allowing single underscores between
digits, as Python integer literals parsed by `int` do. -/
def digitsVal (dv : Char → Option Nat) (base : Nat) : List Char → Nat → Option Nat
  | [], acc => some acc
  | '_' :: c :: rest, acc =>
    match dv c with
    | some d => digitsVal dv base rest (acc * base + d)
    | none => none
  | ['_'], _ => none
  | c :: rest, acc =>
    match dv c with
    | some d => digitsVal dv base rest (acc * base + d)
    | none => none

/-- A nonempty digit run (underscores permitted between digits). -/
def digitsRun (dv : Char → Option Nat) (base : Nat) : List Char → Option Nat
  | [] => none
  | c :: rest =>
    match dv c with
    | some d => digitsVal dv base rest d
    | none => none

/-- Strip leading and trailing whitespace, Python `str.strip()` on the
ASCII whitespace actually occurring in these data files. -/
def pyStrip (l : List Char) : List Char :=
  ((l.dropWhile Char.isWhitespace).reverse.dropWhile Char.isWhitespace).reverse

/-- Split an optional sign off the front of a numeral. -/
def splitSign : List Char → Bool × List Char
  | '-' :: r => (true, r)
  | '+' :: r => (false, r)
  | r => (false, r)

/-- Drop an optional `0x`/`0X` base marker (an underscore directly after
the marker is legal in Python). -/
def dropHexMarker : List Char → List Char
  | '0' :: 'x' :: '_' :: r => r
  | '0' :: 'x' :: r => r
  | '0' :: 'X' :: '_' :: r => r
  | '0' :: 'X' :: r => r
  | r => r

/-- Python `int(s, 16)`.  Surrounding whitespace, an optional sign, an
optional `0x` marker and underscores between digits are accepted.
(Python additionally accepts non-ASCII unicode digits; such strings can
never equal the `%04x`-rendered canonical form the checkers compare
against, so they are immaterial to every verdict proved below.) -/
def pyIntHex (s : String) : Option Int :=
  let t := pyStrip s.data
  let (neg, t') := splitSign t
  match digitsRun hexVal 16 (dropHexMarker t') with
  | some n => some (if neg then -(n : Int) else (n : Int))
  | none => none

/-- Python `int(s)` in base 10 (no base marker permitted). -/
def pyIntDec (s : String) : Option Int :=
  let t := pyStrip s.data
  let (neg, t') := splitSign t
  match digitsRun digitVal 10 t' with
  | some n => some (if neg then -(n : Int) else (n : Int))
  | none => none

/-- Lowercase hex digit character for a value below 16. -/
def hexDigitChar (n : Nat) : Char :=
  if n < 10 then Char.ofNat (48 + n) else Char.ofNat (87 + n)

/-- Fuel-driven lowercase hex rendering of a natural number. -/
def natToHexGo : Nat → Nat → List Char → List Char
  | 0, _, acc => acc
  | fuel + 1, n, acc =>
    if n = 0 then acc else natToHexGo fuel (n / 16) (hexDigitChar (n % 16) :: acc)

/-- Lowercase hex rendering of a natural number, Python `"%x" % n`. -/
def natToHex (n : Nat) : List Char :=
  if n = 0 then ['0'] else natToHexGo n n []

/-- Left-pad a character list with zeros to width `w`. -/
def padLeft0 (l : List Char) (w : Nat) : List Char :=
  List.replicate (w - l.length) '0' ++ l

/-- Python `f"{n:04x}"`: lowercase hex, zero-padded to overall width 4
(the sign of a negative value counts towards the width). -/
def fmt04x (n : Int) : String :=
  if n < 0 then String.mk ('-' :: padLeft0 (natToHex n.natAbs) 3)
  else String.mk (padLeft0 (natToHex n.natAbs) 4)

/-- `Except` sequencing: run the first check, then the second. -/
def seqE (a b : Except ValErr Unit) : Except ValErr Unit :=
  match a with
  | .ok _ => b
  | .error e => .error e

/-- Run a check over every element of a list, stopping at the first
failure (the shape of the Python `for`/`assert` loops). -/
def forE {α : Type} (f : α → Except ValErr Unit) : List α → Except ValErr Unit
  | [] => .ok ()
  | x :: rest => seqE (f x) (forE f rest)

/-- Run a check on the value of key `k` if present, and skip it silently
otherwise: the Python `try: ... section[k] ... except KeyError: pass`
pattern (inside the guarded block only the initial lookup can raise
`KeyError`). -/
def withKey (sec : IniSection) (k : String) (f : String → Except ValErr Unit) :
    Except ValErr Unit :=
  match alook k sec with
  | none => .ok ()
  | some v => f v

/-- Nonempty all-decimal-digit string (one regex group `[0-9]+`). -/
def isDigits (s : String) : Bool :=
  !s.data.isEmpty && s.data.all Char.isDigit

/-- Nonempty string of digits and dots (the regex group `[0-9.]+`). -/
def isDigitsDots (s : String) : Bool :=
  !s.data.isEmpty && s.data.all (fun c => c.isDigit || c = '.')

/-- Numeric value of an all-digit string, `int` on a regex `[0-9]+` group. -/
def natOfDigits (s : String) : Nat :=
  s.data.foldl (fun a c => a * 10 + (c.toNat - 48)) 0

/-- The anchored regex `^([0-9]+):([0-9]+)@([0-9.]+)$` of
`check_dpi_range_str`: the three capture groups, or `none` if the string
does not match.  The group character classes exclude `:` and `@`, so a
matching string decomposes uniquely. -/
def dpiRangeMatch (s : String) : Option (String × String × String) :=
  match splitCh ':' s with
  | [a, rest] =>
    match splitCh '@' rest with
    | [b, c] => if isDigits a && isDigits b && isDigitsDots c then some (a, b, c) else none
    | _ => none
  | _ => none

/-- Python `float` on a `[0-9.]+` group: at most one dot, not a lone dot.
Returns the integer-part and fraction-part digit strings of the literal;
the literal's value is then rounded to IEEE binary64 by `pyFloatOfDec`. -/
def floatGroups (c : String) : Option (String × String) :=
  match splitCh '.' c with
  | [i] => some (i, "")
  | [i, f] => if i = "" ∧ f = "" then none else some (i, f)
  | _ => none

/-- Exact numerator of the decimal literal `i.f` over `10 ^ f.length`:
the value CPython's correctly-rounding `float` conversion receives before
rounding it to binary64. -/
def stepsNum (i f : String) : Nat :=
  natOfDigits i * 10 ^ f.length + natOfDigits f

/-- A CPython float as the script observes it: positive infinity or a
finite non-negative value `m * 2 ^ t` (the sign never arises from a
`[0-9.]+` literal, and NaN cannot arise there either). -/
inductive PyFloat where
  | inf
  | fin (m : Nat) (t : Int)
  deriving DecidableEq, Repr

/-- Fuel-driven floor of the base-2 logarithm (`natLog2 n n` computes
`Nat.log2 n` but reduces in the kernel). -/
def natLog2 : Nat → Nat → Nat
  | 0, _ => 0
  | fuel + 1, n => if n ≤ 1 then 0 else natLog2 fuel (n / 2) + 1

/-- Is `n / 10 ^ k` at least `2 ^ e`? (Exact integer comparison.) -/
def qGePow2 (n k : Nat) (e : Int) : Bool :=
  if 0 ≤ e then 10 ^ k * 2 ^ e.toNat ≤ n
  else 10 ^ k ≤ n * 2 ^ (-e).toNat

/-- Floor of the base-2 logarithm of `n / 10 ^ k` for `n ≥ 1`:
the answer is one of the two candidates given by the integer bit
lengths, settled by one exact comparison. -/
def floorLog2Q (n k : Nat) : Int :=
  let a : Int := natLog2 n n
  let b : Int := natLog2 (10 ^ k) (10 ^ k)
  if qGePow2 n k (a - b) then a - b else a - b - 1

/-- Round `nn / dd` to the nearest integer, ties to even (`dd ≥ 1`). -/
def rne (nn dd : Nat) : Nat :=
  let qt := nn / dd
  let r := nn % dd
  if dd < 2 * r then qt + 1
  else if 2 * r < dd then qt
  else if qt % 2 = 0 then qt else qt + 1

/-- Is `m1 * 2 ^ t1 ≤ m2 * 2 ^ t2`? (Exact integer comparison.) -/
def dyadLe (m1 : Nat) (t1 : Int) (m2 : Nat) (t2 : Int) : Bool :=
  if t1 ≤ t2 then m1 ≤ m2 * 2 ^ (t2 - t1).toNat
  else m1 * 2 ^ (t1 - t2).toNat ≤ m2

/-- Equality of two dyadic values. -/
def dyadEq (m1 : Nat) (t1 : Int) (m2 : Nat) (t2 : Int) : Bool :=
  dyadLe m1 t1 m2 t2 && dyadLe m2 t2 m1 t1

/-- Is `2 ^ 1024 ≤ m * 2 ^ t` (the binary64 overflow threshold)?
Settled on the exponents via the bit length of `m`, so that no
`2 ^ 1024`-sized number is ever materialized. -/
def overflow1024 (m : Nat) (t : Int) : Bool :=
  if 1024 ≤ t then 1 ≤ m
  else 0 < m && 1024 - t ≤ (natLog2 m m : Int)

/-- IEEE binary64 rounding (round to nearest, ties to even) of the exact
decimal value `n / 10 ^ k`, exactly as CPython's correctly-rounding
`float` conversion: the unit in the last place sits at `2 ^ (e2 - 52)`
for normal values and at `2 ^ -1074` in the subnormal range, and a
rounded value reaching `2 ^ 1024` overflows to infinity. -/
def pyFloatOfDec (n k : Nat) : PyFloat :=
  if n = 0 then .fin 0 0
  else
    let e2 := floorLog2Q n k
    let t := max (e2 - 52) (-1074)
    let m :=
      if 0 ≤ t then rne n (10 ^ k * 2 ^ t.toNat)
      else rne (n * 2 ^ (-t).toNat) (10 ^ k)
    if overflow1024 m t then .inf else .fin m t

/-- `steps > 0` on the rounded float. -/
def floatPos : PyFloat → Bool
  | .inf => true
  | .fin m _ => 0 < m

/-- `steps <= 100` on the rounded float. -/
def floatLe100 : PyFloat → Bool
  | .inf => false
  | .fin m t => dyadLe m t 100 0

/-- `int(steps) == steps`: the float is an exact integer.  (`int` of an
infinity raises in Python, but the script's bound checks run first, so
the collapse is never reached there.) -/
def floatIntegral : PyFloat → Bool
  | .inf => false
  | .fin m t => 0 ≤ t || m % 2 ^ (-t).toNat = 0

/-- `int(steps)` of an integral finite float. -/
def floatToNat : PyFloat → Nat
  | .inf => 0
  | .fin m t => if 0 ≤ t then m * 2 ^ t.toNat else m / 2 ^ (-t).toNat

/-- Floor of the base-10 logarithm search for a value below 1: the first
`p ≥ 1` with `acc = m * 10 ^ p` at least `g = 2 ^ -t` (fuel-bounded). -/
def smallPGo : Nat → Nat → Nat → Nat → Nat
  | 0, _, _, p => p
  | fuel + 1, acc, g, p => if g ≤ acc then p else smallPGo fuel (acc * 10) g (p + 1)

/-- Floor of the base-10 logarithm of the positive finite value
`m * 2 ^ t`: the decimal digit count of its floor when it is at least 1,
otherwise minus the first power of ten that lifts it to 1. -/
def floorLog10F (m : Nat) (t : Int) : Int :=
  if dyadLe 1 0 m t then
    let fl := if 0 ≤ t then m * 2 ^ t.toNat else m / 2 ^ (-t).toNat
    (Nat.toDigits 10 fl).length - 1
  else
    let g := 2 ^ (-t).toNat
    Int.neg (smallPGo g (m * 10) g 1 : Int)

/-- The correctly rounded `L`-significant-digit decimal of
`m * 2 ^ t` whose leading digit sits at the `10 ^ E` place; a carry into
the next decade renormalizes to the single digit 1 at `10 ^ (E + 1)`.
Returns the digit block, its length, and the (possibly bumped) decimal
exponent. -/
def digitsAt (m : Nat) (t : Int) (E : Int) (L : Nat) : Nat × Nat × Int :=
  let P : Int := (L : Int) - 1 - E
  let num := m * (if 0 ≤ t then 2 ^ t.toNat else 1) * (if 0 ≤ P then 10 ^ P.toNat else 1)
  let den := (if t < 0 then 2 ^ (-t).toNat else 1) * (if P < 0 then 10 ^ (-P).toNat else 1)
  let D := rne num den
  if D = 10 ^ L then (1, 1, E + 1) else (D, L, E)

/-- Does the candidate decimal `D * 10 ^ (E - L + 1)` parse (with the
same binary64 rounding) back to the float `m * 2 ^ t`? -/
def roundTripOk (m : Nat) (t : Int) (D : Nat) (L : Nat) (E : Int) : Bool :=
  let kk : Int := (L : Int) - 1 - E
  let fl :=
    if 0 ≤ kk then pyFloatOfDec D kk.toNat
    else pyFloatOfDec (D * 10 ^ (-kk).toNat) 0
  match fl with
  | .fin m2 t2 => dyadEq m2 t2 m t
  | .inf => false

/-- Shortest-round-trip digit search of CPython `repr`: try 1 to 16
significant digits and return the first correctly rounded decimal that
parses back to the same float; 17 digits always round-trip and are taken
unchecked when the fuel runs out. -/
def sdGo (m : Nat) (t : Int) (E : Int) : Nat → Nat → Nat × Nat × Int
  | 0, L => digitsAt m t E L
  | fuel + 1, L =>
    let r := digitsAt m t E L
    if roundTripOk m t r.1 r.2.1 r.2.2 then r
    else sdGo m t E fuel (L + 1)

/-- Shortest digits of CPython `repr` for the positive finite float
`m * 2 ^ t`. -/
def shortestDigits (m : Nat) (t : Int) (E : Int) : Nat × Nat × Int :=
  sdGo m t E 16 1

/-- CPython `repr` of a positive finite float `m * 2 ^ t` (`m ≥ 1`):
positional notation when the decimal exponent lies in `[-4, 16)`,
otherwise scientific notation with an at-least-two-digit exponent. -/
def floatReprPos (m : Nat) (t : Int) : String :=
  let E := floorLog10F m t
  let r := shortestDigits m t E
  let D := r.1
  let L := r.2.1
  let E' := r.2.2
  let ds := toString D
  if -4 ≤ E' ∧ E' < 16 then
    if (L : Int) - 1 ≤ E' then
      ds ++ String.mk (List.replicate (E' - ((L : Int) - 1)).toNat '0') ++ ".0"
    else if 0 ≤ E' then
      String.mk (ds.data.take (E' + 1).toNat) ++ "." ++ String.mk (ds.data.drop (E' + 1).toNat)
    else
      "0." ++ String.mk (List.replicate ((-E').toNat - 1) '0') ++ ds
  else
    let mstr := if L = 1 then ds else String.mk (ds.data.take 1) ++ "." ++ String.mk (ds.data.drop 1)
    let eabs := if E' < 0 then (-E').toNat else E'.toNat
    let epad := if eabs < 10 then "0" ++ toString eabs else toString eabs
    mstr ++ (if E' < 0 then "e-" else "e+") ++ epad

/-- The string the script compares against: `steps` collapsed to `int`
when the rounded float is integral (`int(steps) == steps`), otherwise the
CPython `repr` of the float. -/
def renderSteps (i f : String) : String :=
  match pyFloatOfDec (stepsNum i f) f.length with
  | .inf => "inf"
  | .fin m t =>
    if floatIntegral (.fin m t) then toString (floatToNat (.fin m t))
    else floatReprPos m t

/-- `check_dpi_range_str`: regex match, `float` conversion of the steps
group to binary64, bounds `min ∈ [0,400]`, `max ∈ [2000,36000]`,
`steps ∈ (0,100]` on the rounded float, then exact equality with the
canonical re-serialization `f"{min}:{max}@{steps}"`. -/
def checkDpiRangeStr (s : String) : Except ValErr Unit :=
  match dpiRangeMatch s with
  | none => .error .formatError
  | some (a, b, c) =>
    match floatGroups c with
    | none => .error .formatError
    | some (i, f) =>
      let mn := natOfDigits a
      let mx := natOfDigits b
      if mn ≤ 400 ∧ (2000 ≤ mx ∧ mx ≤ 36000) ∧
          (floatPos (pyFloatOfDec (stepsNum i f) f.length) = true ∧
           floatLe100 (pyFloatOfDec (stepsNum i f) f.length) = true) then
        if s = toString mn ++ ":" ++ toString mx ++ "@" ++ renderSteps i f then .ok ()
        else .error .formatError
      else .error .formatError

/-- Drop the final entry when it is empty (a trailing `;`), as
`check_dpi_list_str` does before iterating. -/
def dropLastEmpty (l : List String) : List String :=
  match l.getLast? with
  | some s => if s = "" then l.dropLast else l
  | none => l

/-- Loop of `check_dpi_list_str`: each entry an int in `[0,12000]`
(range checked first), strictly above its predecessor. -/
def dpiListGo : List String → Option Int → Except ValErr Unit
  | [], _ => .ok ()
  | e :: rest, prev =>
    match pyIntDec e with
    | none => .error .formatError
    | some dpi =>
      if 0 ≤ dpi ∧ dpi ≤ 12000 then
        match prev with
        | some p => if p < dpi then dpiListGo rest (some dpi) else .error .orderError
        | none => dpiListGo rest (some dpi)
      else .error .formatError

/-- `check_dpi_list_str`. -/
def checkDpiListStr (s : String) : Except ValErr Unit :=
  dpiListGo (dropLastEmpty (splitCh ';' s)) none

/-- `vid == f"{int(vid, 16):04x}"`: the value parses as hex and
re-renders to the identical string. -/
def hexCanonCheck (x : String) : Except ValErr Unit :=
  match pyIntHex x with
  | none => .error .formatError
  | some n => if x = fmt04x n then .ok () else .error .formatError

/-- One `;`-separated segment of a DeviceMatch string: empty segments
are skipped, others must be `bus:vid:pid` with a known bus type and
canonical 4-digit lowercase hex vid/pid. -/
def checkMatchSeg (m : String) : Except ValErr Unit :=
  if m = "" then .ok ()
  else
    match splitCh ':' m with
    | [bus, vid, pid] =>
      if bus = "usb" ∨ bus = "bluetooth" then seqE (hexCanonCheck vid) (hexCanonCheck pid)
      else .error .formatError
    | _ => .error .formatError

/-- `check_match_str`. -/
def checkMatchStr (s : String) : Except ValErr Unit :=
  forE checkMatchSeg (splitCh ';' s)

/-- `check_devicetype_str`: membership in `mouse`/`keyboard`/`other`. -/
def checkDeviceTypeStr (v : String) : Except ValErr Unit :=
  if v ∈ ["mouse", "keyboard", "other"] then .ok () else .error .unknownValueError

/-- `check_profile_type_str`: membership in `G9`/`G500`/`G700`. -/
def checkProfileTypeStr (v : String) : Except ValErr Unit :=
  if v ∈ ["G9", "G500", "G700"] then .ok () else .error .unknownValueError

/-- Required (and only permitted) keys of the `Device` section in
`test/data-parse-test.py`. -/
def deviceRequiredKeys : List String :=
  ["Name", "Driver", "DeviceMatch", "DeviceType"]

/-- Keys of `keys` must all lie in `permitted`; first stranger fails. -/
def checkKeysPermitted (permitted : List String) (keys : List String) :
    Except ValErr Unit :=
  forE (fun k => if k ∈ permitted then .ok () else .error .unknownKeyError) keys

/-- Every key of `req` must be present in the section. -/
def checkRequired (req : List String) (sec : IniSection) : Except ValErr Unit :=
  forE (fun r => if (alook r sec).isSome then .ok () else .error .missingKeyError) req

/-- Key names of a section, in file order. -/
def sectionKeys (sec : IniSection) : List String :=
  sec.map Prod.fst

/-- Look up a key that the code accesses unconditionally
(`section[k]`): absence surfaces as the `KeyError` failure. -/
def reqKey (sec : IniSection) (k : String) (f : String → Except ValErr Unit) :
    Except ValErr Unit :=
  match alook k sec with
  | some v => f v
  | none => .error .missingKeyError

/-- `check_section_device`: every key must be one of the four required
keys, all four must be present, then `DeviceType` and `DeviceMatch`
values are validated. -/
def checkSectionDevice (sec : IniSection) : Except ValErr Unit :=
  seqE (checkKeysPermitted deviceRequiredKeys (sectionKeys sec))
    (seqE (checkRequired deviceRequiredKeys sec)
      (seqE (reqKey sec "DeviceType" checkDeviceTypeStr)
        (reqKey sec "DeviceMatch" checkMatchStr)))

/-- `Profiles`/`Leds` count check of hidpp10: a decimal int in (0,10). -/
def checkSmallCount (v : String) : Except ValErr Unit :=
  match pyIntDec v with
  | none => .error .formatError
  | some n => if 0 < n ∧ n < 10 then .ok () else .error .formatError

/-- `DeviceIndex` check: a hex int in (0, 0xFF]. -/
def checkDeviceIndexVal (v : String) : Except ValErr Unit :=
  match pyIntHex v with
  | none => .error .formatError
  | some n => if 0 < n ∧ n ≤ 0xFF then .ok () else .error .formatError

/-- Membership of every `;`-separated token in a fixed enumeration. -/
def checkEnumTokens (allowed : List String) (v : String) : Except ValErr Unit :=
  forE (fun t => if t ∈ allowed then .ok () else .error .unknownValueError)
    (splitCh ';' v)

/-- Permitted keys of a `Driver/asus` section. -/
def asusPermittedKeys : List String :=
  ["ButtonMapping", "ButtonMappingSecondary", "Buttons", "DpiRange", "Dpis",
   "Leds", "LedModes", "Profiles", "Quirks", "Wireless"]

/-- `check_section_asus`. -/
def checkSectionAsus (sec : IniSection) : Except ValErr Unit :=
  seqE (checkKeysPermitted asusPermittedKeys (sectionKeys sec))
    (seqE (withKey sec "DpiRange" checkDpiRangeStr)
      (seqE (withKey sec "Quirks" (checkEnumTokens
          ["DOUBLE_DPI", "STRIX_PROFILE", "RAW_BRIGHTNESS", "SEPARATE_XY_DPI",
           "SEPARATE_LEDS", "BUTTONS_SECONDARY"]))
        (withKey sec "LedModes" (checkEnumTokens ["ON", "BREATHING", "CYCLE"]))))

/-- Permitted keys of a `Driver/hidpp10` section. -/
def hidpp10PermittedKeys : List String :=
  ["Profiles", "ProfileType", "DpiRange", "DpiList", "DeviceIndex", "Leds"]

/-- `check_section_hidpp10`: permitted keys, `Profiles` and `DeviceIndex`
ranges, then the mutually-exclusive `DpiRange`/`DpiList` pair (each one,
when present and well-formed, forbids the other), `ProfileType`, `Leds`. -/
def checkSectionHidpp10 (sec : IniSection) : Except ValErr Unit :=
  seqE (checkKeysPermitted hidpp10PermittedKeys (sectionKeys sec))
    (seqE (withKey sec "Profiles" checkSmallCount)
      (seqE (withKey sec "DeviceIndex" checkDeviceIndexVal)
        (seqE (withKey sec "DpiRange" (fun v =>
            seqE (checkDpiRangeStr v)
              (if (alook "DpiList" sec).isSome then .error .conflictError else .ok ())))
          (seqE (withKey sec "DpiList" (fun v =>
              seqE (checkDpiListStr v)
                (if (alook "DpiRange" sec).isSome then .error .conflictError else .ok ())))
            (seqE (withKey sec "ProfileType" checkProfileTypeStr)
              (withKey sec "Leds" checkSmallCount))))))

/-- `check_section_hidpp20`. -/
def checkSectionHidpp20 (sec : IniSection) : Except ValErr Unit :=
  seqE (checkKeysPermitted ["Buttons", "DeviceIndex", "Leds", "ReportRate", "Quirk"]
      (sectionKeys sec))
    (withKey sec "DeviceIndex" checkDeviceIndexVal)

/-- Permitted keys of a `Driver/steelseries` section. -/
def steelseriesPermittedKeys : List String :=
  ["Buttons", "DeviceVersion", "DpiList", "DpiRange", "Leds", "MacroLength", "Quirk"]

/-- `check_section_steelseries`: permitted keys, then `DpiList` (checked
first) and `DpiRange`, each forbidding the other, then `Quirk`. -/
def checkSectionSteelseries (sec : IniSection) : Except ValErr Unit :=
  seqE (checkKeysPermitted steelseriesPermittedKeys (sectionKeys sec))
    (seqE (withKey sec "DpiList" (fun v =>
        seqE (checkDpiListStr v)
          (if (alook "DpiRange" sec).isSome then .error .conflictError else .ok ())))
      (seqE (withKey sec "DpiRange" (fun v =>
          seqE (checkDpiRangeStr v)
            (if (alook "DpiList" sec).isSome then .error .conflictError else .ok ())))
        (withKey sec "Quirk" (fun v =>
          if v ∈ ["Rival100", "SenseiRAW"] then .ok () else .error .unknownValueError))))

/-- `check_section_driver`: dispatch on the driver name; any other name
(`sinowealth` included) raises `Unsupported driver section`. -/
def checkSectionDriver (driver : String) (sec : IniSection) : Except ValErr Unit :=
  if driver = "asus" then checkSectionAsus sec
  else if driver = "hidpp10" then checkSectionHidpp10 sec
  else if driver = "hidpp20" then checkSectionHidpp20 sec
  else if driver = "steelseries" then checkSectionSteelseries sec
  else .error .unsupportedDriverError

/-- The fixed sinowealth per-device section name stem
`Driver/sinowealth/devices/`. -/
def sinoDevStem : String :=
  "Driver/sinowealth/devices/"

/-- Required keys of a sinowealth per-device section. -/
def sinoRequiredKeys : List String :=
  ["DeviceName", "LedType"]

/-- Permitted keys of a sinowealth per-device section. -/
def sinoPermittedKeys : List String :=
  ["DeviceName", "LedType", "Buttons", "Profiles", "SensorType"]

/-- `a` starts with `pre` (on character lists; `str.startswith`). -/
def listLeads : List Char → List Char → Bool
  | [], _ => true
  | _ :: _, [] => false
  | a :: as, b :: bs => a = b && listLeads as bs

/-- `str.startswith` for these ASCII section names. -/
def strLeads (pre s : String) : Bool :=
  listLeads pre.data s.data

/-- The sinowealth per-device section check of `parse_data_file`: the
firmware-version suffix has exactly 4 characters, the required keys are
present, every key is permitted. -/
def checkSinoSection (name : String) (sec : IniSection) : Except ValErr Unit :=
  let fw := String.mk (name.data.drop sinoDevStem.length)
  seqE (if fw.length = 4 then .ok () else .error .formatError)
    (seqE (checkRequired sinoRequiredKeys sec)
      (checkKeysPermitted sinoPermittedKeys (sectionKeys sec)))

/-- Section names of a device file, in file order (`data.sections()`). -/
def sectionNames (f : DeviceFile) : List String :=
  f.map Prod.fst

/-- `parse_data_file` (file already read by configparser): require a
`Device` section and validate it, read the driver, restrict the section
names (with the sinowealth exception, which instead validates only the
`Driver/sinowealth/devices/`-stem sections and leaves all other names
unrestricted), then validate the `Driver/<driver>` section if present. -/
def parseDataFile (f : DeviceFile) : Except ValErr Unit :=
  match alook "Device" f with
  | none => .error .missingSectionError
  | some dev =>
    seqE (checkSectionDevice dev)
      (match alook "Driver" dev with
       | none => .error .missingKeyError
       | some driver =>
         let dsec := "Driver/" ++ driver
         seqE
           (if driver = "sinowealth" then
             forE (fun p =>
                 if strLeads sinoDevStem p.1 then checkSinoSection p.1 p.2 else .ok ()) f
           else
             forE (fun n => if n = "Device" ∨ n = dsec then .ok () else .error .unexpectedSectionError)
               (sectionNames f))
           (match alook dsec f with
            | none => .ok ()
            | some sec => checkSectionDriver driver sec))

/-- `validate_data_file_name`: reject paths containing brackets,
parentheses or curly braces. -/
def validateDataFileName (path : String) : Except ValErr Unit :=
  if path.data.any (fun c => c ∈ ['[', ']', '\x7b', '\x7d', '(', ')']) then
    .error .illegalNameError
  else .ok ()

/-- One iteration of the `main` loop of `data-parse-test.py`: validate
the file name, then the file contents. -/
def validateOne (p : String × DeviceFile) : Except ValErr Unit :=
  seqE (validateDataFileName p.1) (parseDataFile p.2)

/-- Did this per-file validation fail? -/
def isErr (r : Except ValErr Unit) : Bool :=
  match r with
  | .ok _ => false
  | .error _ => true

/-- The corpus loop of `main`: every file is validated inside a
`try`/`except` that records the failure and continues; the outcome of
each file is collected alongside the aggregated error flag. -/
def mainRun : List (String × DeviceFile) → List (String × Except ValErr Unit) × Bool
  | [] => ([], false)
  | p :: rest =>
    let r := validateOne p
    let (rs, e) := mainRun rest
    ((p.1, r) :: rs, isErr r || e)

/-- Process exit code of `data-parse-test.py`: `SystemExit(1)` when any
file failed, 0 otherwise. -/
def mainExit (files : List (String × DeviceFile)) : Nat :=
  if (mainRun files).2 then 1 else 0

/-- The denylisted Logitech receiver product IDs of `receiver-check.py`. -/
def logitechReceivers : List Nat :=
  [0xC50C, 0xC517, 0xC512, 0xC513, 0xC51B, 0xC52B, 0xC52F, 0xC532, 0xC534,
   0xC539, 0xC53F, 0xC53A, 0xC545, 0xC547, 0xC548]

/-- `RECEIVERS`: the denylisted DeviceMatch entries
`f"usb:046d:{r:04x}"`. -/
def RECEIVERS : List String :=
  logitechReceivers.map (fun r => "usb:046d:" ++ String.mk (padLeft0 (natToHex r) 4))

/-- A corpus, as both corpus scripts see it: for each `*.device` file its
basename and the raw `Device`/`DeviceMatch` value. -/
abbrev Corpus := List (String × String)

/-- Reports of the inner loop of `receiver-check.py` for one file:
`(entry, filename)` for every match entry on the denylist, in order. -/
def receiverScanFile (fname dm : String) : List (String × String) :=
  (splitCh ';' dm).filterMap (fun m => if m ∈ RECEIVERS then some (m, fname) else none)

/-- The scan loop of `receiver-check.py`: all reports, and the
`receiver_found` flag. -/
def receiverRun : Corpus → List (String × String) × Bool
  | [] => ([], false)
  | (fname, dm) :: rest =>
    (receiverScanFile fname dm ++ (receiverRun rest).1,
     !(receiverScanFile fname dm).isEmpty || (receiverRun rest).2)

/-- Exit code of `receiver-check.py`. -/
def receiverExit (corpus : Corpus) : Nat :=
  if (receiverRun corpus).2 then 1 else 0

/-- State of the `duplicate-check.py` scan: duplicate reports
`(entry, current file, file of the previous sighting)` in scan order, the
`device_matches` table, and the `duplicates` flag. -/
structure DupState where
  reports : List (String × String × String)
  table : List (String × String)
  dups : Bool
  deriving DecidableEq, Repr

/-- One entry of one file in `duplicate-check.py`: report a duplicate if
the entry is already in the table, then (re)bind the entry to the current
file name. -/
def dupEntryStep (fname : String) (st : DupState) (m : String) : DupState :=
  match alook m st.table with
  | some prev => ⟨st.reports ++ [(m, fname, prev)], (m, fname) :: st.table, true⟩
  | none => ⟨st.reports, (m, fname) :: st.table, st.dups⟩

/-- All `(file, entry)` pairs of a corpus, in scan order. -/
def flatEntries : Corpus → List (String × String)
  | [] => []
  | (f, dm) :: rest => (splitCh ';' dm).map (fun m => (f, m)) ++ flatEntries rest

/-- All match entries of a corpus, in scan order. -/
def allEntries : Corpus → List String
  | [] => []
  | (_, dm) :: rest => splitCh ';' dm ++ allEntries rest

/-- The scan of `duplicate-check.py` over the flattened entry stream. -/
def dupGo : List (String × String) → DupState → DupState
  | [], st => st
  | (f, m) :: rest, st => dupGo rest (dupEntryStep f st m)

/-- The whole `duplicate-check.py` scan. -/
def dupRun (corpus : Corpus) : DupState :=
  dupGo (flatEntries corpus) ⟨[], [], false⟩

/-- Exit code of `duplicate-check.py`. -/
def dupExit (corpus : Corpus) : Nat :=
  if (dupRun corpus).dups then 1 else 0

/-- The last file of the stream declaring entry `m`, if any. -/
def lastDecl (m : String) : List (String × String) → Option String
  | [] => none
  | (f, m') :: rest =>
    match lastDecl m rest with
    | some g => some g
    | none => if m' = m then some f else none

/-- Decidable equality of validation outcomes. -/
def exceptDecEq : DecidableEq (Except ValErr Unit) := fun a b =>
  match a, b with
  | .ok u, .ok v => .isTrue (by cases u; cases v; rfl)
  | .error e, .error e' =>
    match decEq e e' with
    | .isTrue h => .isTrue (by rw [h])
    | .isFalse h => .isFalse (fun hh => h (by cases hh; rfl))
  | .ok _, .error _ => .isFalse (fun hh => Except.noConfusion hh)
  | .error _, .ok _ => .isFalse (fun hh => Except.noConfusion hh)

instance : DecidableEq (Except ValErr Unit) := exceptDecEq

/-- Spec-side reading of the hex round-trip condition: the part parses as
hex and re-renders, via lowercase zero-padded 4-digit hex formatting, to
the identical string. -/
def hexCanonB (x : String) : Bool :=
  match pyIntHex x with
  | some n => x = fmt04x n
  | none => false

/-- Spec-side reading of one DeviceMatch segment: exactly 3 `:`-parts,
known bus type, canonical vid and pid. -/
def segOkB (seg : String) : Bool :=
  match splitCh ':' seg with
  | [bus, vid, pid] =>
    if bus = "usb" ∨ bus = "bluetooth" then hexCanonB vid && hexCanonB pid else false
  | _ => false

/-- Spec-side acceptance condition for a DeviceMatch string: after
splitting on `;`, every nonempty segment is well-formed (empty segments,
wherever they occur, are ignored). -/
def matchSpec (s : String) : Prop :=
  ∀ seg ∈ splitCh ';' s, seg ≠ "" → segOkB seg = true

/-- Spec-side acceptance condition for a DpiRange string, following the
specification's words: the string matches the anchored `int:int@float`
pattern, the parsed values satisfy `min ∈ [0,400]`, `max ∈ [2000,36000]`,
`steps ∈ (0,100]` (on the binary64 value of the steps group), and the
string is character-for-character equal to the canonical
re-serialization `min:max@steps` (an integral steps value rendered
without a trailing `.0`). -/
def dpiRangeSpec (s : String) : Prop :=
  ∃ a b c i f, dpiRangeMatch s = some (a, b, c) ∧ floatGroups c = some (i, f) ∧
    natOfDigits a ≤ 400 ∧ 2000 ≤ natOfDigits b ∧ natOfDigits b ≤ 36000 ∧
    floatPos (pyFloatOfDec (stepsNum i f) f.length) = true ∧
    floatLe100 (pyFloatOfDec (stepsNum i f) f.length) = true ∧
    s = toString (natOfDigits a) ++ ":" ++ toString (natOfDigits b) ++ "@" ++ renderSteps i f

/-- Spec-side acceptance condition for the Device section: all keys
permitted, all required keys present, `DeviceType` and `DeviceMatch`
values well-formed. -/
def deviceSectionSpec (sec : IniSection) : Prop :=
  (∀ k ∈ sectionKeys sec, k ∈ deviceRequiredKeys) ∧
  (∀ r ∈ deviceRequiredKeys, (alook r sec).isSome) ∧
  (∃ t, alook "DeviceType" sec = some t ∧ checkDeviceTypeStr t = .ok ()) ∧
  (∃ m, alook "DeviceMatch" sec = some m ∧ checkMatchStr m = .ok ())

/-- A device file whose `Device` section names a driver that is not one
of the four known drivers, with no `Driver/...` section at all. -/
def unknownDriverDev : IniSection :=
  [("Name", "Foo"), ("Driver", "nosuchdriver"), ("DeviceMatch", "usb:1234:5678"),
   ("DeviceType", "mouse")]

/-- Concrete claim-C1 input: unknown driver, no driver section. -/
def unknownDriverFile : DeviceFile :=
  [("Device", unknownDriverDev)]

/-- Device section naming another unknown driver. -/
def otherDriverDev : IniSection :=
  [("Name", "Bar"), ("Driver", "otherdriver"), ("DeviceMatch", "usb:1234:5679"),
   ("DeviceType", "mouse")]

/-- Concrete claim-C1 witness input: an unknown driver whose
`Driver/otherdriver` section is present. -/
def unknownDriverSecFile : DeviceFile :=
  [("Device", otherDriverDev), ("Driver/otherdriver", [])]

/-- Concrete claim-C2 input: the four required Device keys plus
`LedTypes` and nothing else. -/
def fiveKeySec : IniSection :=
  [("Name", "Foo"), ("Driver", "hidpp20"), ("DeviceMatch", "usb:1234:5678"),
   ("DeviceType", "mouse"), ("LedTypes", "logo")]

/-- Concrete claim-C2 witness input: exactly the four required keys. -/
def goodDevSec : IniSection :=
  [("Name", "G"), ("Driver", "asus"), ("DeviceMatch", "usb:aaaa:bbbb"),
   ("DeviceType", "mouse")]

/-- Concrete claim-C3 input: three files declaring the same entry. -/
def tripleCorpus : Corpus :=
  [("a.device", "usb:046d:0001"), ("b.device", "usb:046d:0001"),
   ("c.device", "usb:046d:0001")]

/-- Concrete claim-C3 witness input: one file declaring one entry twice. -/
def dupDemoCorpus : Corpus :=
  [("x.device", "usb:046d:0002;usb:046d:0002")]

/-- Concrete claim-C4 witness input. -/
def receiverDemoCorpus : Corpus :=
  [("foo.device", "usb:046d:c52b")]

/-- Concrete claim-C5 input: a sinowealth device file carrying an extra
section named neither `Device`, `Driver/sinowealth`, nor with the
per-device stem. -/
def sinoExtraFile : DeviceFile :=
  [("Device",
    [("Name", "Foo"), ("Driver", "sinowealth"), ("DeviceMatch", "usb:1234:5678"),
     ("DeviceType", "mouse")]),
   ("Extra", [("Whatever", "x")]),
   ("Driver/sinowealth/devices/V102", [("DeviceName", "Bar"), ("LedType", "none")])]

/-- Device section of the claim-C5 witness file. -/
def sinoGoodDev : IniSection :=
  [("Name", "Baz"), ("Driver", "sinowealth"), ("DeviceMatch", "usb:258a:0033"),
   ("DeviceType", "mouse")]

/-- Concrete claim-C5 witness input: a sinowealth file with only the
Device section and one well-formed per-device section. -/
def sinoGoodFile : DeviceFile :=
  [("Device", sinoGoodDev),
   ("Driver/sinowealth/devices/A001", [("DeviceName", "X"), ("LedType", "rgb")])]

/-- The minimal file of the specification with `DeviceIndex=0`. -/
def minimalBadIndexFile : DeviceFile :=
  [("Device",
    [("Name", "Foo"), ("Driver", "hidpp20"), ("DeviceMatch", "usb:17ef:6123"),
     ("DeviceType", "mouse")]),
   ("Driver/hidpp20", [("DeviceIndex", "0")])]

/-- A minimal valid hidpp20 device file. -/
def minimalFile : DeviceFile :=
  [("Device",
    [("Name", "Foo"), ("Driver", "hidpp20"), ("DeviceMatch", "usb:17ef:6123"),
     ("DeviceType", "mouse")]),
   ("Driver/hidpp20", [("DeviceIndex", "1")])]

/-- Concrete claim-C6 witness input: one file with an illegal name, one
valid file after it. -/
def mixedCorpusC6 : List (String × DeviceFile) :=
  [("bad[1].device", minimalFile), ("ok.device", minimalFile)]

/-- Concrete claim-C9 input: an hidpp10 section with a well-formed
`DpiRange`, a `DpiList`, and one unknown key. -/
def hidpp10StrangerSec : IniSection :=
  [("DpiRange", "0:2000@50"), ("DpiList", "100;200"), ("Foo", "1")]

/-- Concrete claim-C9 witness inputs. -/
def hidpp10BothSec : IniSection :=
  [("DpiRange", "100:36000@2"), ("DpiList", "400;800")]

/-- Concrete claim-C9 witness input for steelseries. -/
def steelseriesBothSec : IniSection :=
  [("DpiList", "100;200"), ("DpiRange", "0:2000@3")]

/-- Concrete claim-C10 witness input: Device section whose `DeviceMatch`
is present but empty. -/
def emptyMatchSec : IniSection :=
  [("Name", "Foo"), ("Driver", "hidpp20"), ("DeviceMatch", ""), ("DeviceType", "mouse")]

theorem seqE_ok_iff (a b : Except ValErr Unit) :
    seqE a b = .ok () ↔ a = .ok () ∧ b = .ok () := by
  cases a with
  | ok u => cases u; simp [seqE]
  | error e => simp [seqE]

theorem forE_ok_iff {α : Type} (f : α → Except ValErr Unit) (l : List α) :
    forE f l = .ok () ↔ ∀ x ∈ l, f x = .ok () := by
  induction l with
  | nil => simp [forE]
  | cons x rest ih => simp [forE, seqE_ok_iff, ih]

theorem alook_isSome_iff {α : Type} (k : String) (l : List (String × α)) :
    (alook k l).isSome ↔ k ∈ l.map Prod.fst := by
  induction l with
  | nil => simp [alook]
  | cons p rest ih =>
    obtain ⟨k', v⟩ := p
    by_cases h : k' = k
    · subst h; simp [alook]
    · simp [alook, h, ih, Ne.symm h]

theorem seqE_ok_left (b : Except ValErr Unit) : seqE (.ok ()) b = b :=
  rfl

theorem seqE_error_left (e : ValErr) (b : Except ValErr Unit) :
    seqE (.error e) b = .error e :=
  rfl

theorem ite_ok_iff (P : Prop) [Decidable P] (e : ValErr) :
    (if P then (.ok () : Except ValErr Unit) else .error e) = .ok () ↔ P := by
  split <;> simp_all

theorem checkKeysPermitted_ok_iff (permitted keys : List String) :
    checkKeysPermitted permitted keys = .ok () ↔ ∀ k ∈ keys, k ∈ permitted := by
  rw [checkKeysPermitted, forE_ok_iff]
  exact forall₂_congr (fun k _ => ite_ok_iff _ _)

theorem checkRequired_ok_iff (req : List String) (sec : IniSection) :
    checkRequired req sec = .ok () ↔ ∀ r ∈ req, (alook r sec).isSome := by
  rw [checkRequired, forE_ok_iff]
  exact forall₂_congr (fun r _ => ite_ok_iff _ _)

theorem reqKey_ok_iff (sec : IniSection) (k : String) (f : String → Except ValErr Unit) :
    reqKey sec k f = .ok () ↔ ∃ v, alook k sec = some v ∧ f v = .ok () := by
  rw [reqKey]
  cases h : alook k sec <;> simp

theorem hexCanonCheck_ok_iff (x : String) :
    hexCanonCheck x = .ok () ↔ hexCanonB x = true := by
  rw [hexCanonCheck, hexCanonB]
  cases h : pyIntHex x with
  | none => simp
  | some n => split <;> simp_all

theorem checkMatchSeg_ok_iff (seg : String) :
    checkMatchSeg seg = .ok () ↔ (seg = "" ∨ segOkB seg = true) := by
  by_cases h0 : seg = ""
  · simp [checkMatchSeg, h0]
  · rw [checkMatchSeg, if_neg h0, segOkB]
    cases hsp : splitCh ':' seg with
    | nil => simp [h0]
    | cons bus rest =>
      cases rest with
      | nil => simp [h0]
      | cons vid rest2 =>
        cases rest2 with
        | nil => simp [h0]
        | cons pid rest3 =>
          cases rest3 with
          | nil =>
            by_cases hb : bus = "usb" ∨ bus = "bluetooth"
            · simp [hb, seqE_ok_iff, hexCanonCheck_ok_iff, h0]
            · simp [hb, h0]
          | cons x xs => simp [h0]

theorem checkMatchStr_ok_iff (s : String) :
    checkMatchStr s = .ok () ↔ matchSpec s := by
  rw [checkMatchStr, forE_ok_iff, matchSpec]
  refine forall₂_congr (fun seg _ => ?_)
  rw [checkMatchSeg_ok_iff, or_iff_not_imp_left]

theorem checkSectionDriver_unknown (driver : String) (sec : IniSection)
    (h : driver ∉ ["asus", "hidpp10", "hidpp20", "steelseries"]) :
    checkSectionDriver driver sec = .error .unsupportedDriverError := by
  simp only [List.mem_cons, List.not_mem_nil, or_false, not_or] at h
  obtain ⟨h1, h2, h3, h4⟩ := h
  simp [checkSectionDriver, h1, h2, h3, h4]

theorem isErr_true_iff (r : Except ValErr Unit) : isErr r = true ↔ r ≠ .ok () := by
  cases r with
  | ok u => cases u; simp [isErr]
  | error e => simp [isErr]

theorem mainRun_results (files : List (String × DeviceFile)) :
    (mainRun files).1 = files.map (fun p => (p.1, validateOne p)) := by
  induction files with
  | nil => rfl
  | cons p rest ih => simp [mainRun, ih]

theorem mainRun_flag (files : List (String × DeviceFile)) :
    (mainRun files).2 = true ↔ ∃ p ∈ files, validateOne p ≠ .ok () := by
  induction files with
  | nil => simp [mainRun]
  | cons p rest ih => simp [mainRun, ih, isErr_true_iff]

theorem receiverRun_mem (corpus : Corpus) (fname dm : String)
    (h : (fname, dm) ∈ corpus) :
    ∀ r ∈ receiverScanFile fname dm, r ∈ (receiverRun corpus).1 := by
  induction corpus with
  | nil => cases h
  | cons q rest ih =>
    intro r hr
    rcases List.mem_cons.mp h with hh | hh
    · subst hh
      simp only [receiverRun, List.mem_append]
      exact Or.inl hr
    · obtain ⟨f, d⟩ := q
      simp only [receiverRun, List.mem_append]
      exact Or.inr (ih hh r hr)

theorem receiverRun_flag (corpus : Corpus) (fname dm : String)
    (h : (fname, dm) ∈ corpus) (hne : receiverScanFile fname dm ≠ []) :
    (receiverRun corpus).2 = true := by
  induction corpus with
  | nil => cases h
  | cons q rest ih =>
    rcases List.mem_cons.mp h with hh | hh
    · subst hh
      simp [receiverRun, List.isEmpty_iff, hne]
    · obtain ⟨f, d⟩ := q
      simp [receiverRun, ih hh]

theorem alook_cons_isSome {α : Type} (k k' : String) (v : α) (t : List (String × α)) :
    (alook k ((k', v) :: t)).isSome ↔ (k = k' ∨ (alook k t).isSome) := by
  rw [alook]
  by_cases h : k' = k
  · subst h
    simp
  · have hk : ¬ k = k' := fun hh => h hh.symm
    simp [h, hk]

theorem dupEntryStep_table (fname : String) (st : DupState) (m : String) :
    (dupEntryStep fname st m).table = (m, fname) :: st.table := by
  rw [dupEntryStep]
  cases alook m st.table <;> rfl

theorem dupEntryStep_dups (fname : String) (st : DupState) (m : String) :
    (dupEntryStep fname st m).dups = (st.dups || (alook m st.table).isSome) := by
  rw [dupEntryStep]
  cases alook m st.table <;> simp

theorem dupGo_table (l : List (String × String)) (st : DupState) (m : String) :
    alook m (dupGo l st).table =
      (match lastDecl m l with
       | some g => some g
       | none => alook m st.table) := by
  induction l generalizing st with
  | nil => simp [dupGo, lastDecl]
  | cons q rest ih =>
    obtain ⟨f, m'⟩ := q
    rw [dupGo, ih, lastDecl]
    cases hl : lastDecl m rest with
    | some g => simp
    | none =>
      simp only [dupEntryStep_table, alook]
      by_cases hm : m' = m <;> simp [hm]

theorem exists_mem_cons_split {α : Type} {p : α → Prop} (a : α) (l : List α) :
    (∃ m ∈ a :: l, p m) ↔ p a ∨ ∃ m ∈ l, p m := by
  simp only [List.mem_cons]
  constructor
  · rintro ⟨m, hm | hm, h⟩
    · exact Or.inl (hm ▸ h)
    · exact Or.inr ⟨m, hm, h⟩
  · rintro (h | ⟨m, hm, h⟩)
    · exact ⟨a, Or.inl rfl, h⟩
    · exact ⟨m, Or.inr hm, h⟩

theorem dupGo_dups (l : List (String × String)) (st : DupState) :
    (dupGo l st).dups = true ↔
      st.dups = true ∨ (∃ m ∈ l.map Prod.snd, (alook m st.table).isSome) ∨
        ¬ (l.map Prod.snd).Nodup := by
  induction l generalizing st with
  | nil => simp [dupGo]
  | cons q rest ih =>
    obtain ⟨f, m'⟩ := q
    rw [dupGo, ih]
    simp only [dupEntryStep_dups, dupEntryStep_table, Bool.or_eq_true, List.map_cons,
      List.nodup_cons, exists_mem_cons_split, alook_cons_isSome, and_or_left,
      exists_or, exists_eq_right, not_and_or, not_not]
    constructor
    · rintro ((h | h) | (h | h) | h)
      · exact Or.inl h
      · exact Or.inr (Or.inl (Or.inl h))
      · exact Or.inr (Or.inr (Or.inl h))
      · exact Or.inr (Or.inl (Or.inr h))
      · exact Or.inr (Or.inr (Or.inr h))
    · rintro (h | (h | h) | (h | h))
      · exact Or.inl (Or.inl h)
      · exact Or.inl (Or.inr h)
      · exact Or.inr (Or.inl (Or.inr h))
      · exact Or.inr (Or.inl (Or.inl h))
      · exact Or.inr (Or.inr h)

theorem flatEntries_map_snd (corpus : Corpus) :
    (flatEntries corpus).map Prod.snd = allEntries corpus := by
  induction corpus with
  | nil => rfl
  | cons p rest ih =>
    obtain ⟨f, dm⟩ := p
    simp [flatEntries, allEntries, ih, List.map_map, Function.comp]

theorem sanity_minimal_ok : parseDataFile minimalFile = .ok () := by
  decide

theorem sanity_bad_index : parseDataFile minimalBadIndexFile = .error .formatError := by
  decide

theorem sanity_float_collapse :
    checkDpiRangeStr "0:2000@99.999999999999999999" = .error .formatError := by
  decide

theorem sanity_float_shortest :
    checkDpiRangeStr "0:2000@0.1000000000000000055511151231257827" = .error .formatError := by
  decide

theorem sanity_float_roundtrip :
    checkDpiRangeStr "0:2000@99.99999999999999" = .ok () := by
  decide

theorem sanity_float_tenth :
    checkDpiRangeStr "0:2000@0.1" = .ok () := by
  decide

/-- C2 (counterexample): a Device section holding exactly the four
required keys plus `LedTypes` is rejected with an unknown-key failure,
although the claim says it is accepted. -/
theorem claim_C2_counterexample :
    checkSectionDevice fiveKeySec = .error .unknownKeyError ∧
    sectionKeys fiveKeySec = ["Name", "Driver", "DeviceMatch", "DeviceType", "LedTypes"] := by
  constructor
  · decide
  · decide

/-- C2 (amended): Device-section validation succeeds exactly when every
key is one of the four required keys `Name`, `Driver`, `DeviceMatch`,
`DeviceType` (`LedTypes` is not permitted), all four required keys are
present, and the `DeviceType` and `DeviceMatch` values are well-formed. -/
theorem claim_C2_amended (sec : IniSection) :
    checkSectionDevice sec = .ok () ↔ deviceSectionSpec sec := by
  rw [checkSectionDevice, seqE_ok_iff, seqE_ok_iff, seqE_ok_iff, deviceSectionSpec,
    checkKeysPermitted_ok_iff, checkRequired_ok_iff, reqKey_ok_iff, reqKey_ok_iff]

/-- C2 (witness): a section with exactly the four required keys is
accepted, by the amended characterization. -/
theorem claim_C2_witness : checkSectionDevice goodDevSec = .ok () :=
  (claim_C2_amended goodDevSec).mpr
    ⟨by decide, by decide, ⟨"mouse", rfl, by decide⟩, ⟨"usb:aaaa:bbbb", rfl, by decide⟩⟩

/-- C8 (counterexample): the claim says that after ignoring only a
trailing empty segment every remaining segment must split into exactly 3
parts, which would reject a leading empty segment; the code skips every
empty segment and accepts `;usb:1234:5678`. -/
theorem claim_C8_counterexample :
    checkMatchStr ";usb:1234:5678" = .ok () ∧
    ¬ (∀ seg ∈ dropLastEmpty (splitCh ';' ";usb:1234:5678"), segOkB seg = true) := by
  constructor
  · decide
  · decide

/-- C8 (amended): DeviceMatch validation succeeds exactly when, after
splitting on `;` and ignoring every empty segment (not only a trailing
one), each remaining segment splits on `:` into exactly 3 parts with a
known bus type and vid/pid that re-render, via lowercase zero-padded
4-digit hex formatting of their hex value, to the identical string. -/
theorem claim_C8_amended (s : String) :
    checkMatchStr s = .ok () ↔ matchSpec s :=
  checkMatchStr_ok_iff s

/-- C8 (witness): the amended characterization applied to a concrete
well-formed DeviceMatch string. -/
theorem claim_C8_witness : matchSpec "usb:046d:aaaa" :=
  (claim_C8_amended "usb:046d:aaaa").mp (by decide)

/-- C10: the DeviceMatch validator accepts any string all of whose
`;`-separated segments are empty, in particular the empty string and
`";"`, and a Device section whose `DeviceMatch` key is present with an
empty value passes Device-section validation. -/
theorem claim_C10 :
    (∀ s : String, (∀ seg ∈ splitCh ';' s, seg = "") → checkMatchStr s = .ok ()) ∧
    checkMatchStr "" = .ok () ∧ checkMatchStr ";" = .ok () ∧
    checkSectionDevice emptyMatchSec = .ok () := by
  refine ⟨fun s h => ?_, by decide, by decide, by decide⟩
  rw [checkMatchStr, forE_ok_iff]
  intro seg hseg
  rw [h seg hseg]
  decide

/-- C10 (witness): the universally quantified part applied to `";;"`. -/
theorem claim_C10_witness : checkMatchStr ";;" = .ok () :=
  claim_C10.1 ";;" (by decide)

/-- C7: DpiRange validation succeeds exactly when the string matches the
anchored `int:int@float` pattern with `min ∈ [0,400]`,
`max ∈ [2000,36000]`, `steps ∈ (0,100]` and equals the canonical
re-serialization (integral steps rendered without a trailing `.0`);
consequently `0:2000@1.0` is rejected while `0:2000@1` is accepted. -/
theorem claim_C7 :
    (∀ s : String, checkDpiRangeStr s = .ok () ↔ dpiRangeSpec s) ∧
    checkDpiRangeStr "0:2000@1.0" = .error .formatError ∧
    checkDpiRangeStr "0:2000@1" = .ok () := by
  refine ⟨fun s => ?_, by decide, by decide⟩
  rw [checkDpiRangeStr, dpiRangeSpec]
  cases hm : dpiRangeMatch s with
  | none => simp [hm]
  | some g =>
    obtain ⟨a, b, c⟩ := g
    cases hf : floatGroups c with
    | none => simp [hm, hf]
    | some p =>
      obtain ⟨i, f⟩ := p
      simp only [hm, hf, Option.some.injEq, Prod.mk.injEq]
      split
      · split
        · rename_i hb hs
          simp only [true_iff]
          exact ⟨a, b, c, i, f, ⟨rfl, rfl, rfl⟩, hf, hb.1, hb.2.1.1, hb.2.1.2,
            hb.2.2.1, hb.2.2.2, hs⟩
        · rename_i hb hs
          constructor
          · intro hcon
            exact absurd hcon (by decide)
          · rintro ⟨a', b', c', i', f', ⟨rfl, rfl, rfl⟩, hfg, hrest⟩
            rw [hf] at hfg
            injection hfg with hfg
            injection hfg with hi hf2
            subst hi; subst hf2
            exact absurd hrest.2.2.2.2.2 hs
      · rename_i hb
        constructor
        · intro hcon
          exact absurd hcon (by decide)
        · rintro ⟨a', b', c', i', f', ⟨rfl, rfl, rfl⟩, hfg, h1, h2, h3, h4, h5, h6⟩
          rw [hf] at hfg
          injection hfg with hfg
          injection hfg with hi hf2
          subst hi; subst hf2
          exact (hb ⟨h1, ⟨h2, h3⟩, h4, h5⟩).elim

/-- C7 (witness): the characterization applied to a concrete accepted
string. -/
theorem claim_C7_witness : dpiRangeSpec "0:2000@50" :=
  (claim_C7.1 "0:2000@50").mp (by decide)

/-- C4: any corpus file whose DeviceMatch value contains the denylisted
entry `usb:046d:c52b` is reported by the receiver check together with
its file name, the process exits with code 1, and the entry itself
passes the DeviceMatch schema check. -/
theorem claim_C4 (corpus : Corpus) (fname dm : String)
    (h1 : (fname, dm) ∈ corpus) (h2 : "usb:046d:c52b" ∈ splitCh ';' dm) :
    ("usb:046d:c52b", fname) ∈ (receiverRun corpus).1 ∧
    receiverExit corpus = 1 ∧ checkMatchStr "usb:046d:c52b" = .ok () := by
  have hrec : "usb:046d:c52b" ∈ RECEIVERS := by decide
  have hmem : ("usb:046d:c52b", fname) ∈ receiverScanFile fname dm := by
    rw [receiverScanFile]
    exact List.mem_filterMap.mpr ⟨"usb:046d:c52b", h2, by rw [if_pos hrec]⟩
  refine ⟨receiverRun_mem corpus fname dm h1 _ hmem, ?_, by decide⟩
  have hne : receiverScanFile fname dm ≠ [] := by
    intro hemp
    rw [hemp] at hmem
    cases hmem
  rw [receiverExit, receiverRun_flag corpus fname dm h1 hne]
  rfl

/-- C4 (witness): a one-file corpus declaring the Unifying receiver. -/
theorem claim_C4_witness :
    ("usb:046d:c52b", "foo.device") ∈ (receiverRun receiverDemoCorpus).1 ∧
    receiverExit receiverDemoCorpus = 1 ∧ checkMatchStr "usb:046d:c52b" = .ok () :=
  claim_C4 receiverDemoCorpus "foo.device" "usb:046d:c52b" (by decide) (by decide)

/-- C6: the corpus driver validates every file independently (the result
list is exactly the per-file outcomes, so one bad file never aborts the
run or changes another file's verdict), and the exit code is 1 exactly
when at least one file failed. -/
theorem claim_C6 (files : List (String × DeviceFile)) :
    (mainRun files).1 = files.map (fun p => (p.1, validateOne p)) ∧
    (mainExit files = 1 ↔ ∃ p ∈ files, validateOne p ≠ .ok ()) := by
  refine ⟨mainRun_results files, ?_⟩
  have hflag := mainRun_flag files
  constructor
  · intro h
    refine hflag.mp ?_
    by_contra hb
    rw [Bool.not_eq_true] at hb
    simp [mainExit, hb] at h
  · intro h
    simp [mainExit, hflag.mpr h]

/-- C6 (witness): a corpus with one illegally named file and one valid
file exits with code 1. -/
theorem claim_C6_witness : mainExit mixedCorpusC6 = 1 :=
  (claim_C6 mixedCorpusC6).2.mpr ⟨("bad[1].device", minimalFile), by decide, by decide⟩

/-- C3 (counterexample): with three files declaring the same entry, the
second duplicate report pairs the third file with the *second* file, not
with the first file that declared the entry, and the final table maps the
entry to the most recent file; the claim's \"first filename\" mapping is
refuted. -/
theorem claim_C3_counterexample :
    (dupRun tripleCorpus).reports =
      [("usb:046d:0001", "b.device", "a.device"),
       ("usb:046d:0001", "c.device", "b.device")] ∧
    ("usb:046d:0001", "c.device", "a.device") ∉ (dupRun tripleCorpus).reports ∧
    alook "usb:046d:0001" (dupRun tripleCorpus).table = some "c.device" ∧
    dupExit tripleCorpus = 1 := by
  refine ⟨by decide, by decide, by decide, by decide⟩

/-- C3 (amended): the duplicate check exits non-zero exactly when some
entry occurs twice in the corpus entry stream, and the mapping it
maintains binds each entry to the *most recent* file that declared it
(each duplicate sighting having been reported against the previous
sighting's file, without stopping the scan). -/
theorem claim_C3_amended (corpus : Corpus) :
    (dupExit corpus = 1 ↔ ¬ (allEntries corpus).Nodup) ∧
    (∀ m, alook m (dupRun corpus).table = lastDecl m (flatEntries corpus)) := by
  constructor
  · have hd := dupGo_dups (flatEntries corpus) ⟨[], [], false⟩
    rw [flatEntries_map_snd] at hd
    simp only [alook, Option.isSome_none] at hd
    have hr : (dupRun corpus).dups = true ↔ ¬ (allEntries corpus).Nodup := by
      rw [dupRun, hd]
      simp
    constructor
    · intro h
      refine hr.mp ?_
      by_contra hb
      rw [Bool.not_eq_true] at hb
      simp [dupExit, hb] at h
    · intro h
      simp [dupExit, hr.mpr h]
  · intro m
    have ht := dupGo_table (flatEntries corpus) ⟨[], [], false⟩ m
    rw [dupRun, ht]
    cases lastDecl m (flatEntries corpus) <;> rfl

/-- C3 (witness): the amended statement applied to a one-file corpus
declaring the same entry twice. -/
theorem claim_C3_witness :
    dupExit dupDemoCorpus = 1 ∧
    alook "usb:046d:0002" (dupRun dupDemoCorpus).table =
      lastDecl "usb:046d:0002" (flatEntries dupDemoCorpus) :=
  ⟨(claim_C3_amended dupDemoCorpus).1.mpr (by decide),
   (claim_C3_amended dupDemoCorpus).2 "usb:046d:0002"⟩

/-- C9 (counterexample): an hidpp10 section holding a well-formed
`DpiRange` together with `DpiList` but also one unknown key fails with
the unknown-key error, not the conflict error the claim promises for
every such section. -/
theorem claim_C9_counterexample :
    checkSectionHidpp10 hidpp10StrangerSec = .error .unknownKeyError ∧
    checkDpiRangeStr "0:2000@50" = .ok () ∧
    (alook "DpiRange" hidpp10StrangerSec).isSome ∧
    (alook "DpiList" hidpp10StrangerSec).isSome := by
  refine ⟨by decide, by decide, by decide, by decide⟩

/-- C9 (amended): in an hidpp10 section whose keys are all permitted and
whose `Profiles` and `DeviceIndex` values (when present) are valid, a
well-formed `DpiRange` together with a present `DpiList` fails with the
conflict error; in a steelseries section whose keys are all permitted, a
well-formed `DpiList` together with a present `DpiRange` fails with the
conflict error. -/
theorem claim_C9_amended :
    (∀ (sec : IniSection) (v : String),
      checkKeysPermitted hidpp10PermittedKeys (sectionKeys sec) = .ok () →
      withKey sec "Profiles" checkSmallCount = .ok () →
      withKey sec "DeviceIndex" checkDeviceIndexVal = .ok () →
      alook "DpiRange" sec = some v → checkDpiRangeStr v = .ok () →
      (alook "DpiList" sec).isSome →
      checkSectionHidpp10 sec = .error .conflictError) ∧
    (∀ (sec : IniSection) (w : String),
      checkKeysPermitted steelseriesPermittedKeys (sectionKeys sec) = .ok () →
      alook "DpiList" sec = some w → checkDpiListStr w = .ok () →
      (alook "DpiRange" sec).isSome →
      checkSectionSteelseries sec = .error .conflictError) := by
  constructor
  · intro sec v hperm hprof hidx hr hv hl
    have hblock :
        withKey sec "DpiRange" (fun v =>
          seqE (checkDpiRangeStr v)
            (if (alook "DpiList" sec).isSome then .error .conflictError else .ok ())) =
          .error .conflictError := by
      simp only [withKey, hr, hv, seqE_ok_left, if_pos hl]
    rw [checkSectionHidpp10, hperm, seqE_ok_left, hprof, seqE_ok_left, hidx,
      seqE_ok_left, hblock, seqE_error_left]
  · intro sec w hperm hr hv hl
    have hblock :
        withKey sec "DpiList" (fun v =>
          seqE (checkDpiListStr v)
            (if (alook "DpiRange" sec).isSome then .error .conflictError else .ok ())) =
          .error .conflictError := by
      simp only [withKey, hr, hv, seqE_ok_left, if_pos hl]
    rw [checkSectionSteelseries, hperm, seqE_ok_left, hblock, seqE_error_left]

/-- C9 (witness): the amended statement on concrete hidpp10 and
steelseries sections containing both DPI keys. -/
theorem claim_C9_witness :
    checkSectionHidpp10 hidpp10BothSec = .error .conflictError ∧
    checkSectionSteelseries steelseriesBothSec = .error .conflictError :=
  ⟨claim_C9_amended.1 hidpp10BothSec "100:36000@2" (by decide) (by decide) (by decide)
      (by decide) (by decide) (by decide),
   claim_C9_amended.2 steelseriesBothSec "100;200" (by decide) (by decide) (by decide)
      (by decide)⟩

/-- C1 (counterexample): a device file whose `Driver` value is an
unknown driver but which has no `Driver/...` section at all passes
validation, although the claim says validation fails regardless of
whether the driver section is present. -/
theorem claim_C1_counterexample :
    parseDataFile unknownDriverFile = .ok () ∧
    alook "Device" unknownDriverFile = some unknownDriverDev ∧
    alook "Driver" unknownDriverDev = some "nosuchdriver" ∧
    "nosuchdriver" ∉ ["asus", "hidpp10", "hidpp20", "steelseries"] ∧
    alook "Driver/nosuchdriver" unknownDriverFile = none := by
  refine ⟨by decide, by decide, by decide, by decide, by decide⟩

/-- C1 (amended): for a file whose Device section is valid and whose
driver is unknown (and not `sinowealth`), with all section names in the
permitted set, validation fails with the unsupported-driver error exactly
when the `Driver/<driver>` section is present, and succeeds otherwise. -/
theorem claim_C1_amended (f : DeviceFile) (dev : IniSection) (driver : String)
    (h1 : alook "Device" f = some dev)
    (h2 : checkSectionDevice dev = .ok ())
    (h3 : alook "Driver" dev = some driver)
    (h4 : driver ∉ ["asus", "hidpp10", "hidpp20", "steelseries"])
    (h5 : driver ≠ "sinowealth")
    (h6 : ∀ n ∈ sectionNames f, n = "Device" ∨ n = "Driver/" ++ driver) :
    parseDataFile f =
      (if ("Driver/" ++ driver) ∈ sectionNames f then
        (.error .unsupportedDriverError : Except ValErr Unit)
       else .ok ()) := by
  rw [parseDataFile]
  simp only [h1, h2, seqE_ok_left, h3]
  rw [if_neg h5]
  have hforE :
      forE (fun n =>
        if n = "Device" ∨ n = "Driver/" ++ driver then .ok ()
        else .error .unexpectedSectionError) (sectionNames f) = .ok () := by
    rw [forE_ok_iff]
    intro n hn
    rw [if_pos (h6 n hn)]
  rw [hforE, seqE_ok_left]
  by_cases hmem : ("Driver/" ++ driver) ∈ sectionNames f
  · obtain ⟨sec, hsec⟩ :=
      Option.isSome_iff_exists.mp ((alook_isSome_iff _ f).mpr hmem)
    simp only [hsec]
    rw [checkSectionDriver_unknown driver sec h4, if_pos hmem]
  · have hnone : alook ("Driver/" ++ driver) f = none :=
      Option.not_isSome_iff_eq_none.mp (fun hs => hmem ((alook_isSome_iff _ f).mp hs))
    simp only [hnone]
    rw [if_neg hmem]

/-- C1 (witness): the amended statement on a concrete unknown-driver
file whose driver section is present yields the unsupported-driver
error. -/
theorem claim_C1_witness :
    parseDataFile unknownDriverSecFile = .error .unsupportedDriverError := by
  have h := claim_C1_amended unknownDriverSecFile otherDriverDev "otherdriver"
    (by decide) (by decide) (by decide) (by decide) (by decide) (by decide)
  rw [h]
  decide

/-- C5 (counterexample): a sinowealth device file carrying an extra
section named `Extra` (neither `Device`, `Driver/sinowealth`, nor a
`Driver/sinowealth/devices/...` name) passes validation, although the
claim says only stem-named additional sections are permitted. -/
theorem claim_C5_counterexample :
    parseDataFile sinoExtraFile = .ok () ∧
    "Extra" ∈ sectionNames sinoExtraFile ∧
    strLeads sinoDevStem "Extra" = false ∧
    "Extra" ≠ "Device" ∧ "Extra" ≠ "Driver/sinowealth" := by
  refine ⟨by decide, by decide, by decide, by decide, by decide⟩

/-- C5 (amended): for a sinowealth file with a valid Device section,
validation succeeds exactly when every section whose name starts with
`Driver/sinowealth/devices/` passes the per-device check (4-character
firmware suffix, required and permitted keys) and no section named
exactly `Driver/sinowealth` exists (its presence is an unsupported-driver
failure); sections with any other name are unrestricted. -/
theorem claim_C5_amended (f : DeviceFile) (dev : IniSection)
    (h1 : alook "Device" f = some dev)
    (h2 : checkSectionDevice dev = .ok ())
    (h3 : alook "Driver" dev = some "sinowealth") :
    parseDataFile f = .ok () ↔
      ((∀ p ∈ f, strLeads sinoDevStem p.1 = true → checkSinoSection p.1 p.2 = .ok ()) ∧
       alook "Driver/sinowealth" f = none) := by
  rw [parseDataFile]
  simp only [h1, h2, seqE_ok_left, h3]
  rw [if_pos trivial]
  rw [show ("Driver/" ++ "sinowealth") = "Driver/sinowealth" from rfl]
  rw [seqE_ok_iff, forE_ok_iff]
  constructor
  · rintro ⟨ha, hb⟩
    refine ⟨fun p hp hlead => ?_, ?_⟩
    · have hcheck := ha p hp
      rw [if_pos hlead] at hcheck
      exact hcheck
    · cases hx : alook "Driver/sinowealth" f with
      | none => rfl
      | some sec =>
        simp only [hx] at hb
        have hdrv : checkSectionDriver "sinowealth" sec = .error .unsupportedDriverError :=
          rfl
        rw [hdrv] at hb
        cases hb
  · rintro ⟨ha, hb⟩
    constructor
    · intro p hp
      by_cases hlead : strLeads sinoDevStem p.1 = true
      · rw [if_pos hlead]
        exact ha p hp hlead
      · rw [if_neg hlead]
    · rw [hb]

/-- C5 (witness): the amended statement accepts a concrete sinowealth
file with one well-formed per-device section and no other extras. -/
theorem claim_C5_witness : parseDataFile sinoGoodFile = .ok () :=
  (claim_C5_amended sinoGoodFile sinoGoodDev (by decide) (by decide) (by decide)).mpr
    ⟨by decide, by decide⟩

end Ratbag
